import Mathlib

/-!
Verification of the windowing and scroll-control logic of the VirtualList
component (src/src/virtual-list/src/VirtualList.ts).

Pixel quantities (scroll offsets, item size, paddings, heights) are modelled
as rationals; logical indices as integers (the source computes them with
Math.floor / Math.ceil / Math.max / Math.min over JS numbers, and the index
arithmetic can make the raw end index negative, so ℤ rather than ℕ).
An unprepared viewport (listHeightRef undefined) is modelled as a `none`
list height.
-/

namespace VirtualList

/-- The computed value of startIndexRef (lines 100-105):
Math.max(Math.floor((scrollTop - paddingTop) / itemSize) - 1, 0). -/
def startIndex (scrollTop paddingTop itemSize : ℚ) : ℤ :=
  max (⌊(scrollTop - paddingTop) / itemSize⌋ - 1) 0

/-- The end index computed inside viewportItemsRef (lines 110-118):
Math.min(startIndex + Math.ceil(Math.min(listHeight, itemSize * items.length
+ paddingTop - scrollTop) / itemSize) + 1, items.length - 1). -/
def endIndex (listHeight scrollTop paddingTop itemSize : ℚ) (itemCount : ℕ) : ℤ :=
  min
    (startIndex scrollTop paddingTop itemSize +
      ⌈min listHeight (itemSize * itemCount + paddingTop - scrollTop) / itemSize⌉ + 1)
    ((itemCount : ℤ) - 1)

/-- The loop indices of the viewportItems loop (lines 119-122):
for (let i = startIndex; i <= endIndex; ++i).  Empty when endIndex < startIndex. -/
def viewportIndices (listHeight scrollTop paddingTop itemSize : ℚ) (itemCount : ℕ) :
    List ℤ :=
  (List.range
      (endIndex listHeight scrollTop paddingTop itemSize itemCount + 1 -
        startIndex scrollTop paddingTop itemSize).toNat).map
    (fun j : ℕ => startIndex scrollTop paddingTop itemSize + (j : ℤ))

/-- JS array read items[i]: undefined (none) outside [0, length-1]. -/
def itemAt {α : Type} (items : List α) (i : ℤ) : Option α :=
  if i < 0 then none else items.get? i.toNat

/-- The computed value of viewportItemsRef (lines 106-124): empty when the
viewport is unprepared (list height still undefined), otherwise the items read
at each loop index. -/
def viewportItems {α : Type} (listHeight : Option ℚ) (scrollTop paddingTop itemSize : ℚ)
    (items : List α) : List (Option α) :=
  match listHeight with
  | none => []
  | some h =>
    (viewportIndices h scrollTop paddingTop itemSize items.length).map (itemAt items)

/-- Spec-side formula, written from the spec wording to be compared with the
source definition: startIndex(scrollOffset, paddingTop, itemSize) =
max(floor((scrollOffset - paddingTop) / itemSize) - 1, 0). -/
def specStartIndex (scrollOffset paddingTop itemSize : ℚ) : ℤ :=
  max (⌊(scrollOffset - paddingTop) / itemSize⌋ - 1) 0

/-- Spec-side formula, written from the spec wording to be compared with the
source definition: visibleCount = ceil(min(viewportHeight, itemSize * itemCount
+ paddingTop - scrollOffset) / itemSize) + 1. -/
def specVisibleCount (viewportHeight scrollOffset paddingTop itemSize : ℚ)
    (itemCount : ℕ) : ℤ :=
  ⌈min viewportHeight (itemSize * itemCount + paddingTop - scrollOffset) / itemSize⌉ + 1

/-- Spec-side formula, written from the spec wording to be compared with the
source definition: endIndex = min(startIndex + visibleCount, itemCount - 1). -/
def specEndIndex (viewportHeight scrollOffset paddingTop itemSize : ℚ)
    (itemCount : ℕ) : ℤ :=
  min
    (specStartIndex scrollOffset paddingTop itemSize +
      specVisibleCount viewportHeight scrollOffset paddingTop itemSize itemCount)
    ((itemCount : ℤ) - 1)

/-- The y component of the translate3d transform in visibleItemsStyle
(lines 205-209): startIndexRef.value * props.itemSize. -/
def visibleItemsTranslateY (scrollTop paddingTop itemSize : ℚ) : ℚ :=
  (startIndex scrollTop paddingTop itemSize : ℚ) * itemSize

/-- The two possible bodies of the scroll container in render (lines 256-272). -/
inductive RenderBody where
  | itemsBlock
  | emptyPlaceholder
deriving DecidableEq

/-- The render branch (line 257): this.items.length !== 0 selects the items
block, otherwise the empty slot. -/
def renderBody (itemCount : ℕ) : RenderBody :=
  if itemCount ≠ 0 then RenderBody.itemsBlock else RenderBody.emptyPlaceholder

/-- C5: the window start index computed by startIndexRef equals
max(floor((scrollOffset - paddingTop) / itemSize) - 1, 0), and the visible
block translation offset equals startIndex * itemSize. -/
theorem startIndex_matches_spec :
    (∀ s p z : ℚ, startIndex s p z = specStartIndex s p z) ∧
    (∀ s p z : ℚ, visibleItemsTranslateY s p z = (specStartIndex s p z : ℚ) * z) := by
  constructor
  · intro s p z
    rfl
  · intro s p z
    rfl

/-- C4: the end index computed inside viewportItemsRef equals
min(startIndex + ceil(min(viewportHeight, itemSize * itemCount + paddingTop -
scrollOffset) / itemSize) + 1, itemCount - 1); at itemSize=30, paddingTop=0,
viewportHeight=100, itemCount=1000, scrollOffset=305 the window is
startIndex=9, endIndex=14. -/
theorem endIndex_matches_spec :
    (∀ (L s p z : ℚ) (n : ℕ), endIndex L s p z n = specEndIndex L s p z n) ∧
    startIndex 305 0 30 = 9 ∧ endIndex 100 305 0 30 1000 = 14 := by
  refine ⟨?_, ?_, ?_⟩
  · intro L s p z n
    simp [endIndex, specEndIndex, specVisibleCount, specStartIndex, startIndex, add_assoc]
  · have h1 : ⌊(305 : ℚ) / 30⌋ = 10 := by norm_num [Int.floor_eq_iff]
    simp [startIndex, h1]
  · have h1 : ⌊(305 : ℚ) / 30⌋ = 10 := by norm_num [Int.floor_eq_iff]
    have h2 : min (100 : ℚ) (30 * 1000 - 305) = 100 := by norm_num
    have h3 : ⌈(100 : ℚ) / 30⌉ = 4 := by norm_num [Int.ceil_eq_iff]
    simp [endIndex, startIndex, h1, h2, h3]

/-- C8: with an empty item sequence the visible window is empty and the render
falls back to the empty placeholder; with an unprepared viewport (no height
measurement) the visible window is empty regardless of the other parameters. -/
theorem empty_or_unprepared_window :
    (∀ (α : Type) (L s p z : ℚ), viewportItems (some L) s p z ([] : List α) = []) ∧
    renderBody 0 = RenderBody.emptyPlaceholder ∧
    (∀ (α : Type) (s p z : ℚ) (items : List α), viewportItems none s p z items = []) := by
  refine ⟨?_, rfl, ?_⟩
  · intro α L s p z
    have hK : 0 ≤ startIndex s p z := le_max_right _ 0
    have hE : endIndex L s p z 0 ≤ ((0 : ℕ) : ℤ) - 1 := min_le_right _ _
    have hz : (endIndex L s p z 0 + 1 - startIndex s p z).toNat = 0 := by
      apply Int.toNat_eq_zero.mpr
      simp only [Nat.cast_zero, zero_sub] at hE
      omega
    simp [viewportItems, viewportIndices, hz]
  · intro α s p z items
    rfl

/-- The behavior field of ScrollToOptions: smooth, auto, or left undefined. -/
inductive ScrollBehavior where
  | smooth
  | auto
  | undef
deriving DecidableEq

/-- A scroll command issued to the host element via listRef.scrollTo
({left, top, behavior}); left or top may be undefined. -/
structure ScrollCmd where
  left : Option ℚ
  top : Option ℚ
  behavior : ScrollBehavior
deriving DecidableEq

/-- scrollToPosition (lines 180-190): always issues one scroll command with the
given (possibly undefined) left and top. -/
def scrollToPosition (left top : Option ℚ) (behavior : ScrollBehavior) :
    Option ScrollCmd :=
  some ⟨left, top, behavior⟩

/-- scrollToIndex (lines 148-179).  scrollTop and offsetHeight are read from the
host element (listRef).  Returns the scroll command issued, or none when the
debounce policy decides the item is already fully visible. -/
def scrollToIndex (itemSize paddingTop scrollTop offsetHeight : ℚ) (index : ℤ)
    (behavior : ScrollBehavior) (debounce : Bool) : Option ScrollCmd :=
  let targetTop : ℚ := index * itemSize + paddingTop
  if !debounce then some ⟨some 0, some targetTop, behavior⟩
  else if targetTop > scrollTop then
    if targetTop + itemSize ≤ scrollTop + offsetHeight then none
    else some ⟨some 0, some (targetTop + itemSize - offsetHeight), behavior⟩
  else some ⟨some 0, some targetTop, behavior⟩

/-- The keyIndexMapRef computed map (lines 89-95): a Map built by a forEach of
map.set(item.key, index), so a later duplicate key overwrites an earlier one. -/
def keyIndexMap {κ : Type} [DecidableEq κ] (keys : List κ) : κ → Option ℕ :=
  keys.enum.foldl (fun m ik => fun k => if k = ik.2 then some ik.1 else m k)
    (fun _ => none)

/-- The position field of VScrollToOptions. -/
inductive ScrollPosition where
  | top
  | bottom
deriving DecidableEq

/-- The VScrollToOptions argument of scrollTo: every navigation field may be
undefined; debounce defaults to true when undefined (line 133). -/
structure VScrollToOptions (κ : Type) where
  left : Option ℚ
  top : Option ℚ
  index : Option ℤ
  key : Option κ
  position : Option ScrollPosition
  behavior : ScrollBehavior
  debounce : Option Bool

/-- Number.MAX_SAFE_INTEGER, the top used by scrollTo for position bottom
(line 143). -/
def maxSafeInteger : ℚ := 9007199254740991

/-- scrollTo (lines 125-147): dispatches on the first defined option among
left/top, index, key, position.  keys is the current item key sequence,
itemSize and paddingTop the layout props, scrollTop and offsetHeight the state
of the host element. -/
def scrollTo {κ : Type} [DecidableEq κ] (keys : List κ)
    (itemSize paddingTop scrollTop offsetHeight : ℚ) (o : VScrollToOptions κ) :
    Option ScrollCmd :=
  let debounce := o.debounce.getD true
  if o.left.isSome || o.top.isSome then
    scrollToPosition o.left o.top o.behavior
  else match o.index with
  | some i => scrollToIndex itemSize paddingTop scrollTop offsetHeight i o.behavior debounce
  | none => match o.key with
    | some k =>
      match keyIndexMap keys k with
      | some i =>
        scrollToIndex itemSize paddingTop scrollTop offsetHeight (i : ℤ) o.behavior debounce
      | none => none
    | none => match o.position with
      | some ScrollPosition.bottom =>
        scrollToPosition (some 0) (some maxSafeInteger) o.behavior
      | some ScrollPosition.top => scrollToPosition (some 0) (some 0) o.behavior
      | none => none

/-- C2: debounced scroll-to-index with targetTop = index * itemSize + paddingTop
issues (a) a scroll to exactly targetTop when targetTop ≤ the current offset,
(b) no command when the item already fits inside the viewport, and (c) a scroll
to exactly targetTop + itemSize - viewportHeight otherwise; in particular
index=50, itemSize=20, currentOffset=0, viewportHeight=200 scrolls to 820. -/
theorem scrollToIndex_debounced_spec :
    (∀ (z p st oh : ℚ) (i : ℤ) (b : ScrollBehavior),
      scrollToIndex z p st oh i b true =
        (if (i : ℚ) * z + p ≤ st then some ⟨some 0, some ((i : ℚ) * z + p), b⟩
         else if (i : ℚ) * z + p + z ≤ st + oh then none
         else some ⟨some 0, some ((i : ℚ) * z + p + z - oh), b⟩)) ∧
    scrollToIndex 20 0 0 200 50 ScrollBehavior.undef true =
      some ⟨some 0, some 820, ScrollBehavior.undef⟩ := by
  constructor
  · intro z p st oh i b
    rcases le_or_lt ((i : ℚ) * z + p) st with h | h
    · simp [scrollToIndex, h, not_lt.mpr h]
    · simp [scrollToIndex, h, not_le.mpr h]
  · norm_num [scrollToIndex]

/-- C6: key-based scrollTo with a key resolving to index i behaves exactly like
index-based scrollTo with i, and is no command at all when the key is absent
from the key index. -/
theorem scrollTo_key_resolves {κ : Type} [DecidableEq κ] :
    ∀ (keys : List κ) (z p st oh : ℚ) (k : κ) (b : ScrollBehavior)
      (d : Option Bool),
      scrollTo keys z p st oh ⟨none, none, none, some k, none, b, d⟩ =
        (match keyIndexMap keys k with
         | some i => scrollTo keys z p st oh ⟨none, none, some (i : ℤ), none, none, b, d⟩
         | none => none) := by
  intro keys z p st oh k b d
  simp only [scrollTo]
  cases keyIndexMap keys k <;> simp

/-- C7: when several navigation options are supplied at once, only the first in
the order pixel position (left/top) > index > key > named edge position is
honored and the rest are ignored; every combination yields a well-defined
result (the dispatch is total), never an error. -/
theorem scrollTo_precedence {κ : Type} [DecidableEq κ] :
    ∀ (keys : List κ) (z p st oh l t : ℚ) (t1 : Option ℚ) (i : ℤ)
      (io : Option ℤ) (k : κ) (ko : Option κ) (pos : Option ScrollPosition)
      (b : ScrollBehavior) (d : Option Bool),
      (scrollTo keys z p st oh ⟨some l, t1, io, ko, pos, b, d⟩ =
        scrollToPosition (some l) t1 b) ∧
      (scrollTo keys z p st oh ⟨none, some t, io, ko, pos, b, d⟩ =
        scrollToPosition none (some t) b) ∧
      (scrollTo keys z p st oh ⟨none, none, some i, ko, pos, b, d⟩ =
        scrollToIndex z p st oh i b (d.getD true)) ∧
      (scrollTo keys z p st oh ⟨none, none, none, some k, pos, b, d⟩ =
        scrollTo keys z p st oh ⟨none, none, none, some k, none, b, d⟩) ∧
      (scrollTo keys z p st oh ⟨none, none, none, none, some ScrollPosition.bottom, b, d⟩ =
        scrollToPosition (some 0) (some maxSafeInteger) b) ∧
      (scrollTo keys z p st oh ⟨none, none, none, none, some ScrollPosition.top, b, d⟩ =
        scrollToPosition (some 0) (some 0) b) := by
  intro keys z p st oh l t t1 i io k ko pos b d
  refine ⟨rfl, rfl, rfl, ?_, rfl, rfl⟩
  simp only [scrollTo]

/-- The mutable state of the render coordinator: the scrollTop ref (internal
model of the offset), the listHeight ref, the rafFlag guard, the number of
syncViewport callbacks currently scheduled via nextFrame, and the host
element's actual scrollTop (listRef.scrollTop, written by the browser before
the scroll event fires). -/
structure LState where
  scrollTop : ℚ
  listHeight : Option ℚ
  rafFlag : Bool
  pending : ℕ
  dom : ℚ
deriving DecidableEq

/-- handleListScroll (lines 221-229) up to the onScroll call: when rafFlag is
false it schedules syncViewport on the next frame and sets the flag; onScroll
is then invoked in the resulting state. -/
def handleListScroll (s : LState) : LState :=
  if s.rafFlag then s else { s with pending := s.pending + 1, rafFlag := true }

/-- syncViewport (lines 235-238): copies the element's scrollTop into the
internal scrollTop ref and clears rafFlag. -/
def syncViewport (s : LState) : LState :=
  { s with scrollTop := s.dom, rafFlag := false }

/-- handleListResize (lines 230-234) up to the onResize call: stores the
reported content height; onResize is then invoked in the resulting state. -/
def handleListResize (s : LState) (h : ℚ) : LState :=
  { s with listHeight := some h }

/-- The events driving the coordinator: a scroll event carrying the element's
new scrollTop, the firing of the next animation frame (which runs every
scheduled syncViewport callback), and a resize report. -/
inductive VEvent where
  | scroll (d : ℚ)
  | frame
  | resize (h : ℚ)

/-- One step of the event loop. -/
def step (s : LState) : VEvent → LState
  | VEvent.scroll d => handleListScroll { s with dom := d }
  | VEvent.frame =>
    if s.pending = 0 then s else { syncViewport s with pending := 0 }
  | VEvent.resize h => handleListResize s h

/-- Running a sequence of events. -/
def run (s : LState) (evs : List VEvent) : LState :=
  evs.foldl step s

/-- The state at mount: scrollTopRef 0, listHeightRef undefined, rafFlag false,
nothing scheduled. -/
def initState : LState :=
  ⟨0, none, false, 0, 0⟩

/-- The coalescing invariant: a syncViewport callback is scheduled exactly when
rafFlag is set. -/
def rafInvariant (s : LState) : Prop :=
  s.pending = if s.rafFlag then 1 else 0

theorem rafInvariant_step {s : LState} (e : VEvent) (h : rafInvariant s) :
    rafInvariant (step s e) := by
  cases e with
  | scroll d =>
    simp only [step, handleListScroll, rafInvariant] at *
    by_cases hf : s.rafFlag <;> simp_all
  | frame =>
    by_cases hp : s.pending = 0
    · simpa [step, rafInvariant, hp] using h
    · simp [step, rafInvariant, syncViewport, hp]
  | resize hh =>
    simpa [step, handleListResize, rafInvariant] using h

theorem rafInvariant_run {s : LState} (evs : List VEvent) (h : rafInvariant s) :
    rafInvariant (run s evs) := by
  induction evs generalizing s with
  | nil => exact h
  | cons e evs ih => exact ih (rafInvariant_step e h)

/-- C10: under any event sequence from mount, at most one syncViewport
recomputation is pending at any time; a scroll event schedules one only when
rafFlag is false, always leaves rafFlag set, and syncViewport clears the
flag when it runs. -/
theorem raf_coalescing :
    (∀ evs : List VEvent, (run initState evs).pending ≤ 1) ∧
    (∀ (s : LState) (d : ℚ),
      (step s (VEvent.scroll d)).pending =
        (if s.rafFlag then s.pending else s.pending + 1)) ∧
    (∀ (s : LState) (d : ℚ), (step s (VEvent.scroll d)).rafFlag = true) ∧
    (∀ s : LState, (syncViewport s).rafFlag = false) := by
  refine ⟨?_, ?_, ?_, ?_⟩
  · intro evs
    have h0 : rafInvariant initState := by simp [rafInvariant, initState]
    have h := rafInvariant_run evs h0
    rw [rafInvariant] at h
    rw [h]
    split <;> norm_num
  · intro s d
    simp only [step, handleListScroll]
    by_cases hf : s.rafFlag <;> simp [hf]
  · intro s d
    simp only [step, handleListScroll]
    by_cases hf : s.rafFlag <;> simp [hf]
  · intro s
    rfl

/-- C9 counterexample: in the concrete execution where the internal scrollTop
is 0 and a scroll event moves the element to 100, onScroll is invoked in the
state produced by handleListScroll, where the internal scrollTop is still 0,
not 100; the scroll-offset update for that event happens only when the
scheduled syncViewport later runs.  So onScroll is not invoked after the
internal state update for its event. -/
theorem onScroll_before_offset_update_cex :
    (handleListScroll ⟨0, some 100, false, 0, 100⟩).scrollTop = 0 ∧
    (0 : ℚ) ≠ 100 ∧
    (syncViewport (handleListScroll ⟨0, some 100, false, 0, 100⟩)).scrollTop = 100 := by
  refine ⟨rfl, by norm_num, rfl⟩

/-- C9 amended: onResize is invoked only after the viewport-height update for
its resize report; onScroll is invoked only after the recomputation has been
scheduled (rafFlag set), but the internal scroll-offset update is deferred to
the scheduled syncViewport, which performs it after the observer call. -/
theorem observer_order :
    (∀ (s : LState) (h : ℚ), (handleListResize s h).listHeight = some h) ∧
    (∀ (s : LState) (d : ℚ),
      (handleListScroll { s with dom := d }).rafFlag = true ∧
      (handleListScroll { s with dom := d }).scrollTop = s.scrollTop ∧
      (syncViewport (handleListScroll { s with dom := d })).scrollTop = d) := by
  constructor
  · intro s h
    rfl
  · intro s d
    refine ⟨?_, ?_, ?_⟩ <;>
      · simp only [handleListScroll, syncViewport]
        by_cases hf : s.rafFlag <;> simp [hf]

theorem mem_viewportIndices_bounds {L s p z : ℚ} {n : ℕ} {i : ℤ}
    (hi : i ∈ viewportIndices L s p z n) : 0 ≤ i ∧ i ≤ (n : ℤ) - 1 := by
  simp only [viewportIndices, List.mem_map, List.mem_range] at hi
  obtain ⟨j, hj, rfl⟩ := hi
  have hK : (0 : ℤ) ≤ startIndex s p z := le_max_right _ 0
  have hE : endIndex L s p z n ≤ (n : ℤ) - 1 := min_le_right _ _
  omega

/-- C1 amended: for itemCount > 0, itemSize > 0, paddingTop ≥ 0,
viewportHeight ≥ 0 and 0 ≤ scrollOffset < paddingTop + itemSize * (itemCount + 1),
the computed window satisfies 0 ≤ startIndex ≤ endIndex ≤ itemCount - 1, and
the window is empty when itemCount = 0.  (Without the scroll-offset upper
bound the middle inequality fails; see the counterexample.) -/
theorem window_bounds :
    (∀ (n : ℕ) (z p L s : ℚ), 0 < n → 0 < z → 0 ≤ p → 0 ≤ L → 0 ≤ s →
      s < p + z * ((n : ℚ) + 1) →
      0 ≤ startIndex s p z ∧
      startIndex s p z ≤ endIndex L s p z n ∧
      endIndex L s p z n ≤ (n : ℤ) - 1) ∧
    (∀ L s p z : ℚ, viewportIndices L s p z 0 = []) := by
  constructor
  · intro n z p L s hn hz hp hL hs hb
    have hcomm : ((n : ℚ) + 1) * z = z * ((n : ℚ) + 1) := mul_comm _ _
    have hexp : z * ((n : ℚ) + 1) = z * (n : ℚ) + z := by ring
    have hq : ⌊(s - p) / z⌋ < (n : ℤ) + 1 := by
      apply Int.floor_lt.mpr
      rw [div_lt_iff₀ hz]
      push_cast
      linarith
    have hm : -z < min L (z * (n : ℚ) + p - s) := by
      apply lt_min
      · linarith
      · linarith
    have hc : (0 : ℤ) ≤ ⌈min L (z * (n : ℚ) + p - s) / z⌉ := by
      have h1 : ((-1 : ℤ) : ℚ) < min L (z * (n : ℚ) + p - s) / z := by
        push_cast
        rw [lt_div_iff₀ hz]
        linarith
      have h2 := Int.lt_ceil.mpr h1
      omega
    refine ⟨le_max_right _ 0, ?_, min_le_right _ _⟩
    have hKmax : startIndex s p z = max (⌊(s - p) / z⌋ - 1) 0 := rfl
    have hEmin : endIndex L s p z n =
        min (startIndex s p z + ⌈min L (z * (n : ℚ) + p - s) / z⌉ + 1)
          ((n : ℤ) - 1) := rfl
    rw [hEmin, hKmax]
    omega
  · intro L s p z
    have hK : (0 : ℤ) ≤ startIndex s p z := le_max_right _ 0
    have hE : endIndex L s p z 0 ≤ ((0 : ℕ) : ℤ) - 1 := min_le_right _ _
    simp only [Nat.cast_zero, zero_sub] at hE
    have h0 : (endIndex L s p z 0 + 1 - startIndex s p z).toNat = 0 := by
      apply Int.toNat_eq_zero.mpr
      omega
    simp [viewportIndices, h0]

/-- C1 counterexample: with itemCount = 1, itemSize = 10, paddingTop = 0,
viewportHeight = 100 and scrollOffset = 25 (all satisfying the claim's
hypotheses), the code computes startIndex = 1 and endIndex = 0, so
startIndex ≤ endIndex fails. -/
theorem window_bounds_overscroll_cex :
    0 < 1 ∧ (0 : ℚ) < 10 ∧ (0 : ℚ) ≤ 0 ∧ (0 : ℚ) ≤ 100 ∧ (0 : ℚ) ≤ 25 ∧
    ¬ startIndex 25 0 10 ≤ endIndex 100 25 0 10 1 := by
  have h1 : ⌊(25 : ℚ) / 10⌋ = 2 := by norm_num [Int.floor_eq_iff]
  have e1 : startIndex 25 0 10 = 1 := by simp [startIndex, h1]
  have h2 : min (100 : ℚ) (10 * 1 - 25) = -15 := by norm_num
  have h3 : ⌈-((3 : ℚ) / 2)⌉ = -1 := by norm_num [Int.ceil_eq_iff]
  have e2 : endIndex 100 25 0 10 1 = 0 := by
    norm_num [endIndex, e1, min_def, h3]
  refine ⟨by norm_num, by norm_num, le_refl 0, by norm_num, by norm_num, ?_⟩
  rw [e1, e2]
  norm_num

/-- C1 witness: the amended bound holds at itemCount=1000, itemSize=30,
paddingTop=0, viewportHeight=100, scrollOffset=305. -/
theorem window_bounds_witness :
    0 < 1000 ∧ (0 : ℚ) < 30 ∧ (0 : ℚ) ≤ 0 ∧ (0 : ℚ) ≤ 100 ∧ (0 : ℚ) ≤ 305 ∧
    (305 : ℚ) < 0 + 30 * (((1000 : ℕ) : ℚ) + 1) ∧
    (0 ≤ startIndex 305 0 30 ∧
      startIndex 305 0 30 ≤ endIndex 100 305 0 30 1000 ∧
      endIndex 100 305 0 30 1000 ≤ ((1000 : ℕ) : ℤ) - 1) := by
  refine ⟨by norm_num, by norm_num, le_refl 0, by norm_num, by norm_num,
    by push_cast; norm_num, ?_⟩
  exact window_bounds.1 1000 30 0 100 305 (by norm_num) (by norm_num) (le_refl 0)
    (by norm_num) (by norm_num) (by push_cast; norm_num)

/-- C3: every loop index used by the viewportItems loop lies in
[0, itemCount - 1] for a non-empty item sequence, and every item read through
such an index is an actual item (never an out-of-range undefined). -/
theorem viewport_access_in_range :
    (∀ (L s p z : ℚ) (n : ℕ), 1 ≤ n →
      ∀ i ∈ viewportIndices L s p z n, 0 ≤ i ∧ i ≤ (n : ℤ) - 1) ∧
    (∀ (α : Type) (L s p z : ℚ) (items : List α), 1 ≤ items.length →
      ∀ x ∈ viewportItems (some L) s p z items, x.isSome = true) := by
  constructor
  · intro L s p z n _ i hi
    exact mem_viewportIndices_bounds hi
  · intro α L s p z items _ x hx
    simp only [viewportItems, List.mem_map] at hx
    obtain ⟨i, hi, rfl⟩ := hx
    obtain ⟨h0, h1⟩ := mem_viewportIndices_bounds hi
    have hlt : i.toNat < items.length := by omega
    simp [itemAt, not_lt.mpr h0, List.getElem?_eq_getElem hlt]

/-- C3 witness: at itemSize=30, paddingTop=0, viewportHeight=100,
itemCount=1000, scrollOffset=305 the loop index 9 is produced and lies in
[0, 999]; with items [true, false], viewport height 10, item size 10 and
scroll offset 0 the entry read for index 0 is the actual first item. -/
theorem viewport_access_in_range_witness :
    (1 ≤ 1000 ∧ (9 : ℤ) ∈ viewportIndices 100 305 0 30 1000 ∧
      (0 ≤ (9 : ℤ) ∧ (9 : ℤ) ≤ ((1000 : ℕ) : ℤ) - 1)) ∧
    (1 ≤ [true, false].length ∧
      some true ∈ viewportItems (some 10) 0 0 10 [true, false] ∧
      (some true : Option Bool).isSome = true) := by
  have h1 : ⌊(305 : ℚ) / 30⌋ = 10 := by norm_num [Int.floor_eq_iff]
  have e1 : startIndex 305 0 30 = 9 := by simp [startIndex, h1]
  have h2 : min (100 : ℚ) (30 * 1000 - 305) = 100 := by norm_num
  have h3 : ⌈(100 : ℚ) / 30⌉ = 4 := by norm_num [Int.ceil_eq_iff]
  have e2 : endIndex 100 305 0 30 1000 = 14 := by
    simp [endIndex, startIndex, h1, h2, h3]
  have e3 : (9 : ℤ) ∈ viewportIndices 100 305 0 30 1000 := by
    simp only [viewportIndices, e1, e2]
    decide
  have f1 : startIndex 0 0 10 = 0 := by
    norm_num [startIndex]
  have f2 : endIndex 10 0 0 10 2 = 1 := by
    have g1 : min (10 : ℚ) (10 * 2 - 0) = 10 := by norm_num
    have g2 : ⌈(10 : ℚ) / 10⌉ = 1 := by norm_num [Int.ceil_eq_iff]
    simp [endIndex, startIndex, g1, g2]
  have f3 : some true ∈ viewportItems (some 10) 0 0 10 [true, false] := by
    have hl : [true, false].length = 2 := rfl
    simp only [viewportItems, hl]
    unfold viewportIndices
    rw [f1, f2]
    decide
  exact ⟨⟨by norm_num, e3,
      viewport_access_in_range.1 100 305 0 30 1000 (by norm_num) 9 e3⟩,
    ⟨by norm_num, f3,
      viewport_access_in_range.2 Bool 10 0 0 10 [true, false] (by norm_num)
        (some true) f3⟩⟩

end VirtualList
